import Mathlib

set_option linter.unusedVariables false

/-!
Shallow embedding of the feishu-task-skill repository
(scripts/bulk_operations.py, scripts/task_manager.py, scripts/task_notifier.py).

The remote lark SDK client is an external collaborator: each driver or wrapper
is parameterised by the function that performs its remote call.  A call either
returns the SDK response object, carrying the API's explicit success flag,
numeric code, message and data payload, or raises a Python exception carrying
its message.  Remote calls and the rate-limit sleeps (`time.sleep`) are
recorded in an event trace so that "how many calls / sleeps happened" is a
property of the model.  File reading (csv.DictReader, json.load) is modelled
by handing the drivers the decoded list of rows.
-/

/-- Outcome of one remote SDK call: a structured response (success flag, code,
message, data) or a raised exception with its message. -/
inductive CallResult (α : Type) where
  | resp (success : Bool) (code : Int) (msg : String) (data : α)
  | exn (msg : String)
  deriving DecidableEq

/-- True when the call raised an exception. -/
def CallResult.isExn {α : Type} : CallResult α → Bool
  | .exn _ => true
  | .resp _ _ _ _ => false

/-- Body assembled for the task-creation endpoint (CreateTaskRequestBody):
the summary is always set, the optional fields only when the building code
sets them. -/
structure CreateReq where
  summary : String
  description : Option String
  assignee : Option String
  due_time : Option String
  followers : Option (List String) := none
  parent_task_id : Option String := none
  deriving DecidableEq

/-- Body assembled for the task-update endpoint (UpdateTaskRequestBody);
every field is optional and only set by the code paths that use it. -/
structure UpdateBody where
  summary : Option String := none
  description : Option String := none
  status : Option String := none
  assignee : Option String := none
  due_time : Option String := none
  deriving DecidableEq

/-- Trace events of a driver run: the primary remote calls (keyed by task id
for update/delete drivers, by the built request for create calls), the
best-effort secondary add-to-tasklist call, and the rate-limit sleep. -/
inductive Event where
  | call (task_id : String)
  | createCall (req : CreateReq)
  | addCall (tasklist_id : String) (task_id : String)
  | sleep
  deriving DecidableEq

/-- Results dictionary of a bulk driver together with the event trace of the
run: the success list (the "updated"/"deleted" key) and the failure list of
(item, error string) pairs (the "failed" key). -/
structure BulkResult where
  succeeded : List String
  failed : List (String × String)
  events : List Event
  deriving DecidableEq

/-- Error string built by the drivers on a rejected response,
the f-string `{response.code}: {response.msg}`. -/
def errString (code : Int) (msg : String) : String :=
  toString code ++ ": " ++ msg

/-- Loop body shared verbatim by the four bulk drivers of bulk_operations.py:
inside `try`, build the request and perform the call; if `response.success()`
append the task id to the success list, otherwise append the id with the
`code: msg` error string; then `time.sleep(delay)`.  A raised exception jumps
to `except`, which appends the id with the exception message — the sleep,
being inside the `try` after the call, is skipped on that path. -/
def bulkStep (op : String → CallResult Unit) (acc : BulkResult)
    (task_id : String) : BulkResult :=
  match op task_id with
  | .resp s code msg _ =>
    if s then
      { acc with succeeded := acc.succeeded ++ [task_id],
                 events := acc.events ++ [.call task_id, .sleep] }
    else
      { acc with failed := acc.failed ++ [(task_id, errString code msg)],
                 events := acc.events ++ [.call task_id, .sleep] }
  | .exn m =>
      { acc with failed := acc.failed ++ [(task_id, m)],
                 events := acc.events ++ [.call task_id] }

/-- Driver loop of the bulk operations: fold the per-item body over the task
ids, starting from the empty results dictionary. -/
def bulkDriver (op : String → CallResult Unit) (task_ids : List String) :
    BulkResult :=
  task_ids.foldl (bulkStep op) ⟨[], [], []⟩

/-- BulkTaskOperations.bulk_assign: for each task id, an update call whose
body sets only the assignee. -/
def bulk_assign (update : String → UpdateBody → CallResult Unit)
    (task_ids : List String) (assignee : String) : BulkResult :=
  bulkDriver (fun task_id => update task_id { assignee := some assignee })
    task_ids

/-- BulkTaskOperations.bulk_update_status: for each task id, an update call
whose body sets only the status. -/
def bulk_update_status (update : String → UpdateBody → CallResult Unit)
    (task_ids : List String) (status : String) : BulkResult :=
  bulkDriver (fun task_id => update task_id { status := some status })
    task_ids

/-- BulkTaskOperations.bulk_set_due_date: the due time string
`{due_date}T23:59:59+08:00` is computed once; each task id then gets an
update call whose body sets only that due time. -/
def bulk_set_due_date (update : String → UpdateBody → CallResult Unit)
    (task_ids : List String) (due_date : String) : BulkResult :=
  bulkDriver
    (fun task_id =>
      update task_id { due_time := some (due_date ++ "T23:59:59+08:00") })
    task_ids

/-- BulkTaskOperations.bulk_delete: for each task id, a delete call. -/
def bulk_delete (del : String → CallResult Unit) (task_ids : List String) :
    BulkResult :=
  bulkDriver del task_ids

/-- Python truthiness of an optional string: None and the empty string are
falsy, every other string truthy. -/
def pyTruthy : Option String → Bool
  | none => false
  | some s => s != ""

/-- Python `a or b` on optional strings. -/
def pyOr (a b : Option String) : Option String :=
  if pyTruthy a then a else b

/-- One row of the import CSV as produced by csv.DictReader: a missing
column is None. -/
structure CsvRow where
  title : Option String
  description : Option String
  assignee : Option String
  due_date : Option String
  deriving DecidableEq

/-- One object of the import JSON array. -/
structure JsonRow where
  title : Option String
  description : Option String
  assignee : Option String
  due_time : Option String
  deriving DecidableEq

/-- Task payload returned inside the data of a successful create call. -/
structure CreatedTask where
  task_id : String
  summary : String
  deriving DecidableEq

/-- Results dictionary of an import run (the "created" and "failed" keys)
together with the event trace. -/
structure ImportResult (ρ : Type) where
  created : List CreatedTask
  failed : List (ρ × String)
  events : List Event
  deriving DecidableEq

/-- Request built by import_from_csv for one row: summary from the "title"
column with default "Untitled"; description only when truthy; assignee
`row.get("assignee") or default_assignee`, set only when truthy; due time
`{due_date}T23:59:59+08:00` only when the due_date column is truthy. -/
def buildCsvReq (default_assignee : Option String) (row : CsvRow) :
    CreateReq :=
  { summary := row.title.getD "Untitled",
    description := if pyTruthy row.description then row.description else none,
    assignee :=
      let a := pyOr row.assignee default_assignee
      if pyTruthy a then a else none,
    due_time :=
      if pyTruthy row.due_date then
        some (row.due_date.getD "" ++ "T23:59:59+08:00")
      else none }

/-- Request built by import_from_json for one object: summary from "title"
with default "Untitled"; description, assignee and due_time only when
truthy, the due time passed through unchanged. -/
def buildJsonReq (d : JsonRow) : CreateReq :=
  { summary := d.title.getD "Untitled",
    description := if pyTruthy d.description then d.description else none,
    assignee := if pyTruthy d.assignee then d.assignee else none,
    due_time := if pyTruthy d.due_time then d.due_time else none }

/-- BulkTaskOperations._add_to_tasklist: performs the add-task call inside
`try: ... except: pass`, so every outcome of the call — response accepted,
response rejected, exception raised — is swallowed; only the fact that the
call was made remains observable. -/
def _add_to_tasklist (addOp : String → String → CallResult Unit)
    (tasklist_id task_id : String) : List Event :=
  match addOp tasklist_id task_id with
  | .resp _ _ _ _ => [.addCall tasklist_id task_id]
  | .exn _ => [.addCall tasklist_id task_id]

/-- Loop body shared by import_from_csv and import_from_json (parameterised
by the request builder): inside `try`, build the request and perform the
create call; on `response.success()` append the returned task to "created"
and, when a tasklist id was supplied (truthy), make the best-effort
add-to-tasklist call; on a rejected response append the item with the
`code: msg` error string; then `time.sleep(0.2)`.  A raised exception is
caught by `except`, which appends the item with the exception message (the
sleep is skipped on that path). -/
def importStep {ρ : Type} (build : ρ → CreateReq)
    (createOp : CreateReq → CallResult CreatedTask)
    (addOp : String → String → CallResult Unit)
    (tasklist_id : Option String)
    (acc : ImportResult ρ) (item : ρ) : ImportResult ρ :=
  let req := build item
  match createOp req with
  | .resp s code msg task =>
    if s then
      let addEvents :=
        if pyTruthy tasklist_id then
          _add_to_tasklist addOp (tasklist_id.getD "") task.task_id
        else []
      { acc with created := acc.created ++ [task],
                 events := acc.events ++ [.createCall req] ++ addEvents
                             ++ [.sleep] }
    else
      { acc with failed := acc.failed ++ [(item, errString code msg)],
                 events := acc.events ++ [.createCall req, .sleep] }
  | .exn m =>
      { acc with failed := acc.failed ++ [(item, m)],
                 events := acc.events ++ [.createCall req] }

/-- BulkTaskOperations.import_from_csv over the decoded CSV rows. -/
def import_from_csv (createOp : CreateReq → CallResult CreatedTask)
    (addOp : String → String → CallResult Unit)
    (tasklist_id : Option String) (default_assignee : Option String)
    (rows : List CsvRow) : ImportResult CsvRow :=
  rows.foldl
    (importStep (buildCsvReq default_assignee) createOp addOp tasklist_id)
    ⟨[], [], []⟩

/-- BulkTaskOperations.import_from_json over the decoded JSON array. -/
def import_from_json (createOp : CreateReq → CallResult CreatedTask)
    (addOp : String → String → CallResult Unit)
    (tasklist_id : Option String)
    (rows : List JsonRow) : ImportResult JsonRow :=
  rows.foldl (importStep buildJsonReq createOp addOp tasklist_id) ⟨[], [], []⟩

/-- Task ids of the primary update/delete calls recorded in a trace, in
order. -/
def callItems (r : BulkResult) : List String :=
  r.events.filterMap (fun e =>
    match e with
    | .call i => some i
    | _ => none)

/-- Create requests recorded in an import trace, in order. -/
def createReqs {ρ : Type} (r : ImportResult ρ) : List CreateReq :=
  r.events.filterMap (fun e =>
    match e with
    | .createCall q => some q
    | _ => none)

/-- Number of rate-limit sleeps recorded in a bulk trace. -/
def sleepCount (r : BulkResult) : Nat :=
  r.events.countP (fun e => e == Event.sleep)

/-- Counting helper: each loop iteration of a bulk driver adds exactly one
entry to the union of the success and failure lists. -/
theorem bulkFold_count (op : String → CallResult Unit) :
    ∀ (ids : List String) (acc : BulkResult),
      ((ids.foldl (bulkStep op) acc).succeeded.length
        + (ids.foldl (bulkStep op) acc).failed.length)
        = acc.succeeded.length + acc.failed.length + ids.length := by
  intro ids
  induction ids with
  | nil => intro acc; simp
  | cons i ids ih =>
    intro acc
    simp only [List.foldl_cons, ih, bulkStep]
    rcases op i with ⟨s, code, msg, d⟩ | m
    · by_cases hs : s <;> simp [hs] <;> omega
    · simp; omega

/-- Counting helper for the import loops. -/
theorem importFold_count {ρ : Type} (build : ρ → CreateReq)
    (createOp : CreateReq → CallResult CreatedTask)
    (addOp : String → String → CallResult Unit)
    (tasklist_id : Option String) :
    ∀ (rows : List ρ) (acc : ImportResult ρ),
      ((rows.foldl (importStep build createOp addOp tasklist_id) acc).created.length
        + (rows.foldl (importStep build createOp addOp tasklist_id) acc).failed.length)
        = acc.created.length + acc.failed.length + rows.length := by
  intro rows
  induction rows with
  | nil => intro acc; simp
  | cons r rows ih =>
    intro acc
    simp only [List.foldl_cons, ih, importStep]
    rcases createOp (build r) with ⟨s, code, msg, d⟩ | m
    · by_cases hs : s <;> simp [hs] <;> omega
    · simp; omega

/-- C1.  Ledger count invariant: for every input sequence handed to
bulk_assign, bulk_update_status, bulk_set_due_date, bulk_delete,
import_from_csv or import_from_json, the length of the success list plus the
length of the failure list equals the number of input items; a fatal
pre-condition (unreadable file) never reaches the loops modelled here, so it
contributes zero processed items. -/
theorem C1_ledger_count
    (update : String → UpdateBody → CallResult Unit)
    (del : String → CallResult Unit)
    (createOp : CreateReq → CallResult CreatedTask)
    (addOp : String → String → CallResult Unit)
    (ids : List String) (assignee status due_date : String)
    (tasklist_id default_assignee : Option String)
    (rows : List CsvRow) (jrows : List JsonRow) :
    ((bulk_assign update ids assignee).succeeded.length
        + (bulk_assign update ids assignee).failed.length = ids.length)
    ∧ ((bulk_update_status update ids status).succeeded.length
        + (bulk_update_status update ids status).failed.length = ids.length)
    ∧ ((bulk_set_due_date update ids due_date).succeeded.length
        + (bulk_set_due_date update ids due_date).failed.length = ids.length)
    ∧ ((bulk_delete del ids).succeeded.length
        + (bulk_delete del ids).failed.length = ids.length)
    ∧ ((import_from_csv createOp addOp tasklist_id default_assignee
          rows).created.length
        + (import_from_csv createOp addOp tasklist_id default_assignee
          rows).failed.length = rows.length)
    ∧ ((import_from_json createOp addOp tasklist_id jrows).created.length
        + (import_from_json createOp addOp tasklist_id jrows).failed.length
        = jrows.length) := by
  refine ⟨?_, ?_, ?_, ?_, ?_, ?_⟩ <;>
    simp [bulk_assign, bulk_update_status, bulk_set_due_date, bulk_delete,
      bulkDriver, import_from_csv, import_from_json, bulkFold_count,
      importFold_count]

/-- Trace helper: a bulk driver makes exactly one primary call per input
item, in input order, no matter what each call returns. -/
theorem bulkFold_calls (op : String → CallResult Unit) :
    ∀ (ids : List String) (acc : BulkResult),
      callItems (ids.foldl (bulkStep op) acc) = callItems acc ++ ids := by
  intro ids
  induction ids with
  | nil => intro acc; simp
  | cons i ids ih =>
    intro acc
    simp only [List.foldl_cons, ih, bulkStep]
    rcases op i with ⟨s, code, msg, d⟩ | m
    · by_cases hs : s <;> simp [hs, callItems]
    · simp [callItems]

/-- Trace helper: an import loop makes exactly one create call per row, in
input order. -/
theorem importFold_calls {ρ : Type} (build : ρ → CreateReq)
    (createOp : CreateReq → CallResult CreatedTask)
    (addOp : String → String → CallResult Unit)
    (tasklist_id : Option String) :
    ∀ (rows : List ρ) (acc : ImportResult ρ),
      createReqs (rows.foldl (importStep build createOp addOp tasklist_id) acc)
        = createReqs acc ++ rows.map build := by
  intro rows
  induction rows with
  | nil => intro acc; simp
  | cons r rows ih =>
    intro acc
    simp only [List.foldl_cons, ih, importStep]
    rcases hc : createOp (build r) with ⟨s, code, msg, d⟩ | m
    · by_cases hs : s
      · by_cases ht : pyTruthy tasklist_id <;>
          simp [hs, ht, createReqs, _add_to_tasklist] <;>
          rcases addOp (tasklist_id.getD "") d.task_id with _ | _ <;> simp
      · simp [hs, createReqs]
    · simp [createReqs]

/-- Monotonicity helper: the failure list of a bulk run only grows. -/
theorem bulkFold_failed_mono (op : String → CallResult Unit) :
    ∀ (ids : List String) (acc : BulkResult) (x : String × String),
      x ∈ acc.failed → x ∈ (ids.foldl (bulkStep op) acc).failed := by
  intro ids
  induction ids with
  | nil => intro acc x hx; simpa using hx
  | cons i ids ih =>
    intro acc x hx
    refine ih _ x ?_
    simp only [bulkStep]
    rcases op i with ⟨s, code, msg, d⟩ | m
    · by_cases hs : s <;> simp [hs, hx]
    · simp [hx]

/-- Exception conversion helper: an item whose call raises ends up in the
failure list with the exception message. -/
theorem bulkFold_exn_failed (op : String → CallResult Unit) :
    ∀ (ids : List String) (acc : BulkResult) (x : String) (m : String),
      x ∈ ids → op x = .exn m →
      (x, m) ∈ (ids.foldl (bulkStep op) acc).failed := by
  intro ids
  induction ids with
  | nil => intro acc x m hx; simp at hx
  | cons i ids ih =>
    intro acc x m hx hop
    rcases List.mem_cons.mp hx with h | h
    · subst h
      refine bulkFold_failed_mono op ids _ _ ?_
      simp [bulkStep, hop]
    · exact ih _ x m h hop

/-- Monotonicity helper: the failure list of an import run only grows. -/
theorem importFold_failed_mono {ρ : Type} (build : ρ → CreateReq)
    (createOp : CreateReq → CallResult CreatedTask)
    (addOp : String → String → CallResult Unit)
    (tasklist_id : Option String) :
    ∀ (rows : List ρ) (acc : ImportResult ρ) (x : ρ × String),
      x ∈ acc.failed →
      x ∈ (rows.foldl (importStep build createOp addOp tasklist_id)
        acc).failed := by
  intro rows
  induction rows with
  | nil => intro acc x hx; simpa using hx
  | cons r rows ih =>
    intro acc x hx
    refine ih _ x ?_
    simp only [importStep]
    rcases createOp (build r) with ⟨s, code, msg, d⟩ | m
    · by_cases hs : s <;> simp [hs, hx]
    · simp [hx]

/-- Exception conversion helper for the import loops. -/
theorem importFold_exn_failed {ρ : Type} (build : ρ → CreateReq)
    (createOp : CreateReq → CallResult CreatedTask)
    (addOp : String → String → CallResult Unit)
    (tasklist_id : Option String) :
    ∀ (rows : List ρ) (acc : ImportResult ρ) (row : ρ) (m : String),
      row ∈ rows → createOp (build row) = .exn m →
      (row, m) ∈ (rows.foldl (importStep build createOp addOp tasklist_id)
        acc).failed := by
  intro rows
  induction rows with
  | nil => intro acc row m hx; simp at hx
  | cons r rows ih =>
    intro acc row m hx hop
    rcases List.mem_cons.mp hx with h | h
    · subst h
      refine importFold_failed_mono build createOp addOp tasklist_id rows _ _ ?_
      simp [importStep, hop]
    · exact ih _ row m h hop

/-- C2.  Per-item failure isolation: whatever the per-item calls do, a bulk
run performs its primary call for every input item in order (so no failure
prevents a later attempt), and an item whose call raises an exception is
converted into a failure entry carrying the exception message; likewise for
the import loop. -/
theorem C2_failure_isolation
    (update : String → UpdateBody → CallResult Unit)
    (createOp : CreateReq → CallResult CreatedTask)
    (addOp : String → String → CallResult Unit)
    (ids : List String) (assignee : String)
    (tasklist_id default_assignee : Option String)
    (rows : List CsvRow) (x : String) (m : String) (row : CsvRow)
    (m2 : String)
    (hx : x ∈ ids)
    (hop : update x { assignee := some assignee } = .exn m)
    (hrow : row ∈ rows)
    (hrop : createOp (buildCsvReq default_assignee row) = .exn m2) :
    callItems (bulk_assign update ids assignee) = ids
    ∧ (x, m) ∈ (bulk_assign update ids assignee).failed
    ∧ createReqs (import_from_csv createOp addOp tasklist_id default_assignee
        rows) = rows.map (buildCsvReq default_assignee)
    ∧ (row, m2) ∈ (import_from_csv createOp addOp tasklist_id
        default_assignee rows).failed := by
  refine ⟨?_, ?_, ?_, ?_⟩
  · simpa [bulk_assign, bulkDriver, callItems]
      using bulkFold_calls (fun task_id =>
        update task_id { assignee := some assignee }) ids ⟨[], [], []⟩
  · exact bulkFold_exn_failed _ ids ⟨[], [], []⟩ x m hx hop
  · simpa [import_from_csv, createReqs]
      using importFold_calls (buildCsvReq default_assignee) createOp addOp
        tasklist_id rows ⟨[], [], []⟩
  · exact importFold_exn_failed _ createOp addOp tasklist_id rows
      ⟨[], [], []⟩ row m2 hrow hrop

/-- Witness for C2: five task ids with the call raising on the third — all
five are attempted, the third lands in failures with the exception message;
same shape for a five-row CSV import raising on its third row. -/
theorem C2_failure_isolation_witness :
    ("t3" ∈ ["t1", "t2", "t3", "t4", "t5"])
    ∧ (callItems (bulk_assign
          (fun task_id _ =>
            if task_id = "t3" then .exn "boom" else .resp true 0 "" ())
          ["t1", "t2", "t3", "t4", "t5"] "ou_u")
        = ["t1", "t2", "t3", "t4", "t5"]
    ∧ ("t3", "boom") ∈ (bulk_assign
          (fun task_id _ =>
            if task_id = "t3" then .exn "boom" else .resp true 0 "" ())
          ["t1", "t2", "t3", "t4", "t5"] "ou_u").failed
    ∧ createReqs (import_from_csv
          (fun req => if req.summary = "r3" then .exn "io error"
            else .resp true 0 "" ⟨"id", req.summary⟩)
          (fun _ _ => .resp true 0 "" ()) none none
          [⟨some "r1", none, none, none⟩, ⟨some "r2", none, none, none⟩,
           ⟨some "r3", none, none, none⟩, ⟨some "r4", none, none, none⟩,
           ⟨some "r5", none, none, none⟩])
        = [⟨some "r1", none, none, none⟩, ⟨some "r2", none, none, none⟩,
           ⟨some "r3", none, none, none⟩, ⟨some "r4", none, none, none⟩,
           ⟨some "r5", none, none, none⟩].map (buildCsvReq none)
    ∧ (⟨some "r3", none, none, none⟩, "io error") ∈ (import_from_csv
          (fun req => if req.summary = "r3" then .exn "io error"
            else .resp true 0 "" ⟨"id", req.summary⟩)
          (fun _ _ => .resp true 0 "" ()) none none
          [⟨some "r1", none, none, none⟩, ⟨some "r2", none, none, none⟩,
           ⟨some "r3", none, none, none⟩, ⟨some "r4", none, none, none⟩,
           ⟨some "r5", none, none, none⟩]).failed) :=
  ⟨by decide,
   C2_failure_isolation _ _ _ _ _ _ _ _ _ _ _ _
     (by decide) (by decide) (by decide) (by decide)⟩

/-- Sleep counting helper: a bulk run sleeps once per item whose call
returned a structured response (accepted or rejected), and not at all for an
item whose call raised. -/
theorem bulkFold_sleeps (op : String → CallResult Unit) :
    ∀ (ids : List String) (acc : BulkResult),
      sleepCount (ids.foldl (bulkStep op) acc)
        = sleepCount acc + ids.countP (fun i => !(op i).isExn) := by
  intro ids
  induction ids with
  | nil => intro acc; simp
  | cons i ids ih =>
    intro acc
    simp only [List.foldl_cons, ih, bulkStep, List.countP_cons]
    rcases hi : op i with ⟨s, code, msg, d⟩ | m
    · by_cases hs : s <;>
        simp [hs, hi, sleepCount, CallResult.isExn] <;> omega
    · simp [hi, sleepCount, CallResult.isExn]

/-- Counterexample to C3 as stated: a three-item bulk_assign run in which
every call raises processes all three items into failures yet performs zero
rate-limit sleeps, while the claim demands a sleep after every processed item
(at least two sleeps here). -/
theorem C3_sleep_counterexample :
    sleepCount (bulk_assign (fun _ _ => .exn "network error")
        ["a", "b", "c"] "ou_u") = 0
    ∧ (bulk_assign (fun _ _ => .exn "network error")
        ["a", "b", "c"] "ou_u").failed.length = 3 := by
  constructor <;> rfl

/-- C3 amended.  Rate-limit sleep after every non-raising item: a bulk driver
sleeps exactly once after each item whose call completed with a structured
response — success or remote rejection alike — and skips the sleep for an
item whose call raised an exception (the sleep sits inside the `try` block
after the call). -/
theorem C3_amended_sleeps
    (update : String → UpdateBody → CallResult Unit)
    (del : String → CallResult Unit)
    (ids : List String) (assignee status due_date : String) :
    sleepCount (bulk_assign update ids assignee)
      = ids.countP
          (fun i => !(update i { assignee := some assignee }).isExn)
    ∧ sleepCount (bulk_update_status update ids status)
      = ids.countP (fun i => !(update i { status := some status }).isExn)
    ∧ sleepCount (bulk_set_due_date update ids due_date)
      = ids.countP (fun i =>
          !(update i
            { due_time := some (due_date ++ "T23:59:59+08:00") }).isExn)
    ∧ sleepCount (bulk_delete del ids)
      = ids.countP (fun i => !(del i).isExn) := by
  refine ⟨?_, ?_, ?_, ?_⟩ <;>
  · simp only [bulk_assign, bulk_update_status, bulk_set_due_date,
      bulk_delete, bulkDriver]
    rw [bulkFold_sleeps]
    simp [sleepCount]

/-- C5.  Empty-batch behaviour: on an empty input sequence every bulk driver
returns the empty ledger and its trace records no remote call and no
sleep. -/
theorem C5_empty_batch
    (update : String → UpdateBody → CallResult Unit)
    (del : String → CallResult Unit)
    (createOp : CreateReq → CallResult CreatedTask)
    (addOp : String → String → CallResult Unit)
    (assignee status due_date : String)
    (tasklist_id default_assignee : Option String) :
    bulk_assign update [] assignee = ⟨[], [], []⟩
    ∧ bulk_update_status update [] status = ⟨[], [], []⟩
    ∧ bulk_set_due_date update [] due_date = ⟨[], [], []⟩
    ∧ bulk_delete del [] = ⟨[], [], []⟩
    ∧ import_from_csv createOp addOp tasklist_id default_assignee []
        = ⟨[], [], []⟩
    ∧ import_from_json createOp addOp tasklist_id [] = ⟨[], [], []⟩ :=
  ⟨rfl, rfl, rfl, rfl, rfl, rfl⟩

/-- Swallowing helper: whatever the add-to-tasklist call returns — accepted,
rejected, or raising — _add_to_tasklist behaves identically. -/
theorem _add_to_tasklist_const
    (addOp : String → String → CallResult Unit)
    (tasklist_id task_id : String) :
    _add_to_tasklist addOp tasklist_id task_id
      = [.addCall tasklist_id task_id] := by
  unfold _add_to_tasklist
  rcases addOp tasklist_id task_id with _ | _ <;> rfl

/-- C6.  Best-effort secondary call never surfaces failure: an import run
with a tasklist id supplied returns literally the same result — created
list, failure list and trace — for any two behaviours of the secondary
add-to-tasklist call, in particular when it always raises versus when it
always succeeds. -/
theorem C6_secondary_swallowed
    (createOp : CreateReq → CallResult CreatedTask)
    (addOp1 addOp2 : String → String → CallResult Unit)
    (tasklist_id : String) (default_assignee : Option String)
    (rows : List CsvRow) (jrows : List JsonRow) :
    import_from_csv createOp addOp1 (some tasklist_id) default_assignee rows
      = import_from_csv createOp addOp2 (some tasklist_id) default_assignee
          rows
    ∧ import_from_json createOp addOp1 (some tasklist_id) jrows
      = import_from_json createOp addOp2 (some tasklist_id) jrows := by
  have hstep : ∀ (ρ : Type) (build : ρ → CreateReq),
      importStep build createOp addOp1 (some tasklist_id)
        = importStep build createOp addOp2 (some tasklist_id) := by
    intro ρ build
    funext acc item
    rcases h : createOp (build item) with ⟨s, code, msg, task⟩ | m
    · by_cases hs : s <;>
        simp [importStep, h, hs, _add_to_tasklist_const]
    · simp [importStep, h]
  constructor
  · unfold import_from_csv; rw [hstep]
  · unfold import_from_json; rw [hstep]

/-- Environment variables consulted by the three constructors. -/
structure Env where
  FEISHU_APP_ID : Option String
  FEISHU_APP_SECRET : Option String
  deriving DecidableEq

/-- Constructor of FeishuTaskManager: each credential is the argument `or`
the environment variable; if either resolved credential is falsy a
ValueError is raised before the lark client is built; otherwise the client
is built locally from the two credentials, with no remote call. -/
def FeishuTaskManager.init (env : Env) (app_id app_secret : Option String) :
    Except String (String × String) :=
  let aid := pyOr app_id env.FEISHU_APP_ID
  let sec := pyOr app_secret env.FEISHU_APP_SECRET
  if !pyTruthy aid || !pyTruthy sec then
    .error ("App credentials required. Set FEISHU_APP_ID and "
      ++ "FEISHU_APP_SECRET environment variables or pass to constructor.")
  else
    .ok (aid.getD "", sec.getD "")

/-- Constructor of BulkTaskOperations: same credential resolution as
FeishuTaskManager, with the short ValueError message. -/
def BulkTaskOperations.init (env : Env) (app_id app_secret : Option String) :
    Except String (String × String) :=
  let aid := pyOr app_id env.FEISHU_APP_ID
  let sec := pyOr app_secret env.FEISHU_APP_SECRET
  if !pyTruthy aid || !pyTruthy sec then
    .error "App credentials required"
  else
    .ok (aid.getD "", sec.getD "")

/-- Constructor of TaskNotifier: same credential resolution as
BulkTaskOperations. -/
def TaskNotifier.init (env : Env) (app_id app_secret : Option String) :
    Except String (String × String) :=
  let aid := pyOr app_id env.FEISHU_APP_ID
  let sec := pyOr app_secret env.FEISHU_APP_SECRET
  if !pyTruthy aid || !pyTruthy sec then
    .error "App credentials required"
  else
    .ok (aid.getD "", sec.getD "")

/-- C7.  Credential precondition: when the app id is absent (neither passed
as an argument nor present in the environment) or the app secret is, each of
the three constructors fails with its ValueError before any client exists,
so no remote call can be issued by such an instance. -/
theorem C7_credentials_required (env : Env) (app_id app_secret : Option String)
    (h : (app_id = none ∧ env.FEISHU_APP_ID = none)
      ∨ (app_secret = none ∧ env.FEISHU_APP_SECRET = none)) :
    (∃ m, FeishuTaskManager.init env app_id app_secret = .error m)
    ∧ (∃ m, BulkTaskOperations.init env app_id app_secret = .error m)
    ∧ (∃ m, TaskNotifier.init env app_id app_secret = .error m) := by
  have hfalsy :
      (!pyTruthy (pyOr app_id env.FEISHU_APP_ID)
        || !pyTruthy (pyOr app_secret env.FEISHU_APP_SECRET)) = true := by
    rcases h with ⟨h1, h2⟩ | ⟨h1, h2⟩
    · simp [h1, h2, pyOr, pyTruthy]
    · simp [h1, h2, pyOr, pyTruthy]
  refine ⟨?_, ?_, ?_⟩ <;>
    simp [FeishuTaskManager.init, BulkTaskOperations.init, TaskNotifier.init,
      hfalsy]

/-- Witness for C7: with an empty environment and no arguments all three
constructors fail. -/
theorem C7_credentials_required_witness :
    (((none : Option String) = none ∧ (Env.mk none none).FEISHU_APP_ID = none)
      ∨ ((none : Option String) = none
          ∧ (Env.mk none none).FEISHU_APP_SECRET = none))
    ∧ ((∃ m, FeishuTaskManager.init ⟨none, none⟩ none none = .error m)
      ∧ (∃ m, BulkTaskOperations.init ⟨none, none⟩ none none = .error m)
      ∧ (∃ m, TaskNotifier.init ⟨none, none⟩ none none = .error m)) :=
  ⟨Or.inl ⟨rfl, rfl⟩,
   C7_credentials_required ⟨none, none⟩ none none (Or.inl ⟨rfl, rfl⟩)⟩

/-- Python datetime value as handled by the aggregators: the wall-clock
reading of datetime.fromisoformat (modelled as an integer timestamp) plus
the UTC offset when the parsed string carried one — an offset-aware value —
or none for an offset-naive value such as datetime.now(). -/
structure PyDateTime where
  clock : Int
  offset : Option Int
  deriving DecidableEq

/-- Python `a < b` on datetime values: comparing an offset-aware value with
an offset-naive one raises TypeError; otherwise the instants are compared,
aware values shifted by their offset. -/
def pyDtLt (a b : PyDateTime) : Except String Bool :=
  match a.offset, b.offset with
  | none, none => .ok (decide (a.clock < b.clock))
  | some oa, some ob => .ok (decide (a.clock - oa < b.clock - ob))
  | _, _ =>
    .error "TypeError: cannot compare offset-naive and offset-aware datetimes"

/-- Task record as consumed by generate_task_report and send_daily_digest:
the status string and the due_time already parsed by
datetime.fromisoformat(due_time.replace(Z, +00:00)) — none when the task has
no due_time. -/
structure RTask where
  task_id : String
  summary : String
  status : String
  due_time : Option PyDateTime
  deriving DecidableEq

/-- Report dictionary of generate_task_report: the "total" count and the
four task lists. -/
structure Report where
  total : Nat
  todo : List RTask
  in_progress : List RTask
  completed : List RTask
  overdue : List RTask
  deriving DecidableEq

/-- First half of the loop body of generate_task_report: `if status in
report: report[status].append(task)` — the dict has keys "total", "todo",
"in_progress", "completed", "overdue"; a status naming one of the four lists
appends the task there, while the status "total" hits the integer entry,
whose .append raises AttributeError; any other status is skipped. -/
def statusAppend (acc : Report) (t : RTask) : Except String Report :=
  if t.status = "todo" then .ok { acc with todo := acc.todo ++ [t] }
  else if t.status = "in_progress" then
    .ok { acc with in_progress := acc.in_progress ++ [t] }
  else if t.status = "completed" then
    .ok { acc with completed := acc.completed ++ [t] }
  else if t.status = "overdue" then
    .ok { acc with overdue := acc.overdue ++ [t] }
  else if t.status = "total" then
    .error "AttributeError: int object has no attribute append"
  else .ok acc

/-- Second half of the loop body: when the task has a due_time and its status
is "todo" or "in_progress", compare the parsed due_time with now (a
comparison that raises TypeError when the due_time is offset-aware, since
datetime.now() is naive) and append to the overdue list when it is in the
past. -/
def overdueAppend (now : PyDateTime) (acc1 : Report) (t : RTask) :
    Except String Report :=
  match t.due_time with
  | some due =>
    if t.status = "todo" ∨ t.status = "in_progress" then
      match pyDtLt due now with
      | .error e => .error e
      | .ok lt =>
        if lt then .ok { acc1 with overdue := acc1.overdue ++ [t] }
        else .ok acc1
    else .ok acc1
  | none => .ok acc1

/-- Full loop body of generate_task_report; a raised exception propagates
(the loop has no try). -/
def reportStep (now : PyDateTime) (acc : Report) (t : RTask) :
    Except String Report :=
  match statusAppend acc t with
  | .error e => .error e
  | .ok acc1 => overdueAppend now acc1 t

/-- The for-loop of generate_task_report over the fetched tasks. -/
def reportFold (now : PyDateTime) (acc : Report) :
    List RTask → Except String Report
  | [] => .ok acc
  | t :: ts =>
    match reportStep now acc t with
    | .error e => .error e
    | .ok acc1 => reportFold now acc1 ts

/-- generate_task_report restricted to its pure classification part: fold the
loop body over the fetched tasks, starting from the dict whose total is the
number of tasks and whose four lists are empty. -/
def generate_task_report (now : PyDateTime) (tasks : List RTask) :
    Except String Report :=
  reportFold now ⟨tasks.length, [], [], [], []⟩ tasks

/-- Filter condition of the overdue list comprehension in send_daily_digest:
status "todo" or "in_progress", a due_time present, and the parsed due_time
< now (which raises TypeError for an offset-aware due_time). -/
def digestCheck (now : PyDateTime) (t : RTask) : Except String Bool :=
  if t.status = "todo" ∨ t.status = "in_progress" then
    match t.due_time with
    | some due => pyDtLt due now
    | none => .ok false
  else .ok false

/-- The overdue list comprehension of send_daily_digest, with a raised
exception propagating out of the comprehension. -/
def digestFold (now : PyDateTime) (acc : List RTask) :
    List RTask → Except String (List RTask)
  | [] => .ok acc
  | t :: ts =>
    match digestCheck now t with
    | .error e => .error e
    | .ok b => digestFold now (if b then acc ++ [t] else acc) ts

/-- Overdue partition computed by send_daily_digest over the fetched
tasks. -/
def send_daily_digest_overdue (now : PyDateTime) (tasks : List RTask) :
    Except String (List RTask) :=
  digestFold now [] tasks

/-- C4.  Overdue classification, evaluated at the failing input: a task with
status "todo" whose due timestamp is offset-aware (the repository's own due
format `...T23:59:59+08:00`, and any `Z` timestamp after the code's
Z-to-+00:00 replacement) and strictly earlier than now makes both
aggregators raise TypeError — datetime.fromisoformat yields an offset-aware
value which Python refuses to compare with the offset-naive datetime.now() —
so the task is not placed in any overdue partition, against the claim. -/
theorem C4_overdue_crash :
    generate_task_report ⟨100, none⟩
        [⟨"t1", "s", "todo", some ⟨0, some 0⟩⟩]
      = .error
        "TypeError: cannot compare offset-naive and offset-aware datetimes"
    ∧ send_daily_digest_overdue ⟨100, none⟩
        [⟨"t1", "s", "todo", some ⟨0, some 0⟩⟩]
      = .error
        "TypeError: cannot compare offset-naive and offset-aware datetimes" :=
  ⟨rfl, rfl⟩

/-- Invariant of the report under construction: each status list holds only
tasks of its status, and every overdue-listed task of status "todo" or
"in_progress" is also in its status list. -/
def ReportInv (r : Report) : Prop :=
  (∀ u ∈ r.todo, u.status = "todo")
  ∧ (∀ u ∈ r.in_progress, u.status = "in_progress")
  ∧ (∀ u ∈ r.completed, u.status = "completed")
  ∧ ∀ u ∈ r.overdue,
      (u.status = "todo" → u ∈ r.todo)
      ∧ (u.status = "in_progress" → u ∈ r.in_progress)

/-- Properties of the dict-key append: it preserves the invariant and the
total, only grows the lists, and places a "todo"/"in_progress" task in its
status list. -/
theorem statusAppend_props (acc : Report) (t : RTask) (a1 : Report)
    (h : statusAppend acc t = .ok a1) (hinv : ReportInv acc) :
    ReportInv a1 ∧ acc.todo ⊆ a1.todo ∧ acc.in_progress ⊆ a1.in_progress
    ∧ acc.completed ⊆ a1.completed ∧ acc.overdue ⊆ a1.overdue
    ∧ a1.total = acc.total
    ∧ (t.status = "todo" → t ∈ a1.todo)
    ∧ (t.status = "in_progress" → t ∈ a1.in_progress) := by
  obtain ⟨h1, h2, h3, h4⟩ := hinv
  unfold statusAppend at h
  by_cases c1 : t.status = "todo"
  · rw [if_pos c1] at h
    injection h with h
    subst h
    refine ⟨⟨?_, h2, h3, ?_⟩, ?_, fun u hu => hu, fun u hu => hu,
      fun u hu => hu, rfl, ?_, ?_⟩
    · intro u hu
      rcases List.mem_append.mp hu with hu | hu
      · exact h1 u hu
      · rw [List.mem_singleton.mp hu]; exact c1
    · intro u hu
      exact ⟨fun hs => List.mem_append.mpr (Or.inl ((h4 u hu).1 hs)),
        fun hs => (h4 u hu).2 hs⟩
    · exact fun u hu => List.mem_append.mpr (Or.inl hu)
    · exact fun _ => List.mem_append.mpr (Or.inr (List.mem_singleton.mpr rfl))
    · intro hs; exact absurd (c1.symm.trans hs) (by decide)
  · rw [if_neg c1] at h
    by_cases c2 : t.status = "in_progress"
    · rw [if_pos c2] at h
      injection h with h
      subst h
      refine ⟨⟨h1, ?_, h3, ?_⟩, fun u hu => hu, ?_, fun u hu => hu,
        fun u hu => hu, rfl, ?_, ?_⟩
      · intro u hu
        rcases List.mem_append.mp hu with hu | hu
        · exact h2 u hu
        · rw [List.mem_singleton.mp hu]; exact c2
      · intro u hu
        exact ⟨fun hs => (h4 u hu).1 hs,
          fun hs => List.mem_append.mpr (Or.inl ((h4 u hu).2 hs))⟩
      · exact fun u hu => List.mem_append.mpr (Or.inl hu)
      · intro hs; exact absurd (c2.symm.trans hs) (by decide)
      · exact fun _ =>
          List.mem_append.mpr (Or.inr (List.mem_singleton.mpr rfl))
    · rw [if_neg c2] at h
      by_cases c3 : t.status = "completed"
      · rw [if_pos c3] at h
        injection h with h
        subst h
        refine ⟨⟨h1, h2, ?_, ?_⟩, fun u hu => hu, fun u hu => hu, ?_,
          fun u hu => hu, rfl, fun hs => absurd hs c1,
          fun hs => absurd hs c2⟩
        · intro u hu
          rcases List.mem_append.mp hu with hu | hu
          · exact h3 u hu
          · rw [List.mem_singleton.mp hu]; exact c3
        · intro u hu
          exact ⟨fun hs => (h4 u hu).1 hs, fun hs => (h4 u hu).2 hs⟩
        · exact fun u hu => List.mem_append.mpr (Or.inl hu)
      · rw [if_neg c3] at h
        by_cases c4 : t.status = "overdue"
        · rw [if_pos c4] at h
          injection h with h
          subst h
          refine ⟨⟨h1, h2, h3, ?_⟩, fun u hu => hu, fun u hu => hu,
            fun u hu => hu, ?_, rfl, fun hs => absurd hs c1,
            fun hs => absurd hs c2⟩
          · intro u hu
            rcases List.mem_append.mp hu with hu | hu
            · exact ⟨fun hs => (h4 u hu).1 hs, fun hs => (h4 u hu).2 hs⟩
            · rw [List.mem_singleton.mp hu]
              exact ⟨fun hs => absurd (c4.symm.trans hs) (by decide),
                fun hs => absurd (c4.symm.trans hs) (by decide)⟩
          · exact fun u hu => List.mem_append.mpr (Or.inl hu)
        · rw [if_neg c4] at h
          by_cases c5 : t.status = "total"
          · rw [if_pos c5] at h
            exact Except.noConfusion h
          · rw [if_neg c5] at h
            injection h with h
            subst h
            exact ⟨⟨h1, h2, h3, h4⟩, fun u hu => hu, fun u hu => hu,
              fun u hu => hu, fun u hu => hu, rfl,
              fun hs => absurd hs c1, fun hs => absurd hs c2⟩

/-- Properties of the overdue check: it preserves the three status lists
exactly, the total, and the invariant (using that the task, when of status
"todo"/"in_progress", is already in its status list). -/
theorem overdueAppend_props (now : PyDateTime) (acc1 : Report) (t : RTask)
    (r : Report) (h : overdueAppend now acc1 t = .ok r)
    (hinv : ReportInv acc1)
    (htd : t.status = "todo" → t ∈ acc1.todo)
    (hip : t.status = "in_progress" → t ∈ acc1.in_progress) :
    ReportInv r ∧ r.todo = acc1.todo ∧ r.in_progress = acc1.in_progress
    ∧ r.completed = acc1.completed ∧ acc1.overdue ⊆ r.overdue
    ∧ r.total = acc1.total := by
  obtain ⟨h1, h2, h3, h4⟩ := hinv
  unfold overdueAppend at h
  rcases hdue : t.due_time with _ | due
  · rw [hdue] at h
    simp only at h
    injection h with h
    subst h
    exact ⟨⟨h1, h2, h3, h4⟩, rfl, rfl, rfl, fun u hu => hu, rfl⟩
  · rw [hdue] at h
    simp only at h
    by_cases hs : t.status = "todo" ∨ t.status = "in_progress"
    · rw [if_pos hs] at h
      rcases hlt : pyDtLt due now with e | lt
      · rw [hlt] at h
        exact Except.noConfusion h
      · rw [hlt] at h
        simp only at h
        by_cases hb : lt
        · rw [if_pos hb] at h
          injection h with h
          subst h
          refine ⟨⟨h1, h2, h3, ?_⟩, rfl, rfl, rfl, ?_, rfl⟩
          · intro u hu
            rcases List.mem_append.mp hu with hu | hu
            · exact ⟨fun hst => (h4 u hu).1 hst, fun hst => (h4 u hu).2 hst⟩
            · rw [List.mem_singleton.mp hu]
              exact ⟨fun hst => htd hst, fun hst => hip hst⟩
          · exact fun u hu => List.mem_append.mpr (Or.inl hu)
        · rw [if_neg hb] at h
          injection h with h
          subst h
          exact ⟨⟨h1, h2, h3, h4⟩, rfl, rfl, rfl, fun u hu => hu, rfl⟩
    · rw [if_neg hs] at h
      injection h with h
      subst h
      exact ⟨⟨h1, h2, h3, h4⟩, rfl, rfl, rfl, fun u hu => hu, rfl⟩

/-- Properties of one full loop iteration of generate_task_report. -/
theorem reportStep_props (now : PyDateTime) (acc : Report) (t : RTask)
    (r : Report) (h : reportStep now acc t = .ok r) (hinv : ReportInv acc) :
    ReportInv r ∧ acc.todo ⊆ r.todo ∧ acc.in_progress ⊆ r.in_progress
    ∧ acc.completed ⊆ r.completed ∧ r.total = acc.total
    ∧ (t.status = "todo" → t ∈ r.todo)
    ∧ (t.status = "in_progress" → t ∈ r.in_progress) := by
  unfold reportStep at h
  rcases hsa : statusAppend acc t with e | a1
  · rw [hsa] at h; simp at h
  · rw [hsa] at h
    obtain ⟨ha1, hsub1, hsub2, hsub3, _, htot1, htd, hip⟩ :=
      statusAppend_props acc t a1 hsa hinv
    obtain ⟨hr, he1, he2, he3, _, htot2⟩ :=
      overdueAppend_props now a1 t r h ha1 htd hip
    refine ⟨hr, ?_, ?_, ?_, by rw [htot2, htot1], ?_, ?_⟩
    · rw [he1]; exact hsub1
    · rw [he2]; exact hsub2
    · rw [he3]; exact hsub3
    · intro hs; rw [he1]; exact htd hs
    · intro hs; rw [he2]; exact hip hs

/-- Properties of the whole report loop, by induction over the tasks. -/
theorem reportFold_props (now : PyDateTime) :
    ∀ (ts : List RTask) (acc : Report) (r : Report),
      reportFold now acc ts = .ok r → ReportInv acc →
      ReportInv r ∧ acc.todo ⊆ r.todo ∧ acc.in_progress ⊆ r.in_progress
      ∧ acc.completed ⊆ r.completed ∧ r.total = acc.total
      ∧ ∀ t ∈ ts, (t.status = "todo" → t ∈ r.todo)
          ∧ (t.status = "in_progress" → t ∈ r.in_progress) := by
  intro ts
  induction ts with
  | nil =>
    intro acc r h hinv
    simp only [reportFold, Except.ok.injEq] at h
    subst h
    exact ⟨hinv, fun u hu => hu, fun u hu => hu, fun u hu => hu, rfl,
      by simp⟩
  | cons t ts ih =>
    intro acc r h hinv
    unfold reportFold at h
    rcases hst : reportStep now acc t with e | acc1
    · rw [hst] at h; simp at h
    · rw [hst] at h
      obtain ⟨ha1, hsub1, hsub2, hsub3, htot1, htd, hip⟩ :=
        reportStep_props now acc t acc1 hst hinv
      obtain ⟨hr, hsub1f, hsub2f, hsub3f, htot2, hmem⟩ := ih acc1 r h ha1
      refine ⟨hr, fun u hu => hsub1f (hsub1 hu),
        fun u hu => hsub2f (hsub2 hu), fun u hu => hsub3f (hsub3 hu),
        by rw [htot2, htot1], ?_⟩
      intro u hu
      rcases List.mem_cons.mp hu with hu | hu
      · subst hu
        exact ⟨fun hs => hsub1f (htd hs), fun hs => hsub2f (hip hs)⟩
      · exact hmem u hu

/-- Counterexample to C10 as stated: a task of status "overdue" is placed in
the overdue list by the dict-key append yet appears in no status list, and a
task of status "total" makes the loop raise AttributeError (the dict's
"total" entry is an int) instead of being counted in a returned report. -/
theorem C10_report_counterexample :
    generate_task_report ⟨0, none⟩ [⟨"t1", "s", "overdue", none⟩]
      = .ok ⟨1, [], [], [], [⟨"t1", "s", "overdue", none⟩]⟩
    ∧ generate_task_report ⟨0, none⟩ [⟨"t2", "s", "total", none⟩]
      = .error "AttributeError: int object has no attribute append" :=
  ⟨rfl, rfl⟩

/-- C10 amended.  Whenever generate_task_report returns a report: its total
is the input length; every overdue-listed task of status "todo" or
"in_progress" also remains in its status list (so such tasks are counted
twice across the report's lists); every input task whose status is none of
"todo", "in_progress", "completed" appears in none of the three status
lists, so the sum of the three status-list lengths can be strictly less than
the total — while a task of status "overdue" lands in the overdue list by
the dict-key append, and one of status "total" aborts the report with an
AttributeError instead of being counted. -/
theorem C10_amended_report (now : PyDateTime) (tasks : List RTask)
    (r : Report) (h : generate_task_report now tasks = .ok r) :
    r.total = tasks.length
    ∧ (∀ t ∈ r.overdue,
        (t.status = "todo" → t ∈ r.todo)
        ∧ (t.status = "in_progress" → t ∈ r.in_progress))
    ∧ (∀ t ∈ tasks, t.status ≠ "todo" → t.status ≠ "in_progress" →
        t.status ≠ "completed" →
        t ∉ r.todo ∧ t ∉ r.in_progress ∧ t ∉ r.completed)
    ∧ ∃ tasks2 r2, generate_task_report now tasks2 = .ok r2
        ∧ r2.todo.length + r2.in_progress.length + r2.completed.length
          < r2.total := by
  have hinit : ReportInv ⟨tasks.length, [], [], [], []⟩ := by
    refine ⟨?_, ?_, ?_, ?_⟩ <;> intro u hu <;> simp at hu
  obtain ⟨⟨i1, i2, i3, i4⟩, _, _, _, htot, _⟩ :=
    reportFold_props now tasks ⟨tasks.length, [], [], [], []⟩ r h hinit
  refine ⟨htot, i4, ?_, ?_⟩
  · intro t ht h1 h2 h3
    exact ⟨fun hm => h1 (i1 t hm), fun hm => h2 (i2 t hm),
      fun hm => h3 (i3 t hm)⟩
  · exact ⟨[⟨"x", "s", "blocked", none⟩], ⟨1, [], [], [], []⟩, rfl,
      by decide⟩

/-- Witness for C10 amended: a singleton "todo" task produces a report, and
the amended theorem applied to it gives total = 1. -/
theorem C10_amended_report_witness :
    generate_task_report ⟨0, none⟩ [⟨"t1", "s", "todo", none⟩]
      = .ok ⟨1, [⟨"t1", "s", "todo", none⟩], [], [], []⟩
    ∧ (⟨1, [⟨"t1", "s", "todo", none⟩], [], [], []⟩ : Report).total
      = [(⟨"t1", "s", "todo", none⟩ : RTask)].length :=
  ⟨rfl, (C10_amended_report ⟨0, none⟩ [⟨"t1", "s", "todo", none⟩]
    ⟨1, [⟨"t1", "s", "todo", none⟩], [], [], []⟩ rfl).1⟩

/-- SDK response object as seen by the single-shot wrappers of
task_manager.py: success flag, code, message and data payload. -/
structure Response (α : Type) where
  success : Bool
  code : Int
  msg : String
  data : α
  deriving DecidableEq

/-- Data payload of the task endpoints, wrapping the task object. -/
structure TaskData (τ : Type) where
  task : τ
  deriving DecidableEq

/-- Data payload of the tasklist endpoints, wrapping the tasklist object. -/
structure TasklistData (τ : Type) where
  tasklist : τ
  deriving DecidableEq

/-- Diagnostic string printed by _handle_response on a rejected response,
with the two hint lines for the known permission / not-found codes. -/
def handleMsg (operation : String) (code : Int) (msg : String) : String :=
  let base := operation ++ " failed: " ++ toString code ++ " - " ++ msg
  if code = 99991672 then
    base ++ "\nHint: Check app permissions (task:task:read/write)"
  else if code = 99991663 then
    base ++ "\nHint: Task not found, verify task ID"
  else base

/-- FeishuTaskManager._handle_response: on a rejected response print the
diagnostic to stderr and return None, otherwise return response.data.  The
pair is (returned value, printed diagnostics). -/
def _handle_response {α : Type} (operation : String) (r : Response α) :
    Option α × List String :=
  if !r.success then (none, [handleMsg operation r.code r.msg])
  else (some r.data, [])

/-- Result of one single-shot wrapper: its return value, the remote calls it
performed, and the diagnostics it printed. -/
structure WrapResult (α : Type) where
  result : α
  calls : List String
  prints : List String
  deriving DecidableEq

/-- Python truthiness of an optional list: None and the empty list are
falsy. -/
def pyTruthyList : Option (List String) → Bool
  | none => false
  | some l => !l.isEmpty

/-- Request built by create_task: summary and description always set, the
optional fields only when truthy. -/
def createReqOf (title description : String)
    (assignee due_time : Option String) (followers : Option (List String))
    (parent_task_id : Option String) : CreateReq :=
  { summary := title,
    description := some description,
    assignee := if pyTruthy assignee then assignee else none,
    due_time := if pyTruthy due_time then due_time else none,
    followers := if pyTruthyList followers then followers else none,
    parent_task_id :=
      if pyTruthy parent_task_id then parent_task_id else none }

/-- Body built by update_task: each field only when the argument is
truthy. -/
def updateBodyOf (title description status assignee due_time : Option String) :
    UpdateBody :=
  { summary := if pyTruthy title then title else none,
    description := if pyTruthy description then description else none,
    status := if pyTruthy status then status else none,
    assignee := if pyTruthy assignee then assignee else none,
    due_time := if pyTruthy due_time then due_time else none }

/-- FeishuTaskManager.create_task: build the request, perform the one create
call, run the response through _handle_response, and return data.task when
data came back, else None. -/
def create_task {τ : Type} (client : CreateReq → Response (TaskData τ))
    (title description : String) (assignee due_time : Option String)
    (followers : Option (List String)) (parent_task_id : Option String) :
    WrapResult (Option τ) :=
  let response :=
    client (createReqOf title description assignee due_time followers
      parent_task_id)
  let h := _handle_response "Create task" response
  { result := h.1.map TaskData.task, calls := ["task.create"], prints := h.2 }

/-- FeishuTaskManager.get_task: one get call, unwrapped through
_handle_response. -/
def get_task {τ : Type} (client : String → Response (TaskData τ))
    (task_id : String) : WrapResult (Option τ) :=
  let response := client task_id
  let h := _handle_response "Get task" response
  { result := h.1.map TaskData.task, calls := ["task.get " ++ task_id],
    prints := h.2 }

/-- FeishuTaskManager.update_task: build the body from the truthy arguments,
one update call, unwrapped through _handle_response. -/
def update_task {τ : Type} (client : String → UpdateBody → Response (TaskData τ))
    (task_id : String)
    (title description status assignee due_time : Option String) :
    WrapResult (Option τ) :=
  let response :=
    client task_id (updateBodyOf title description status assignee due_time)
  let h := _handle_response "Update task" response
  { result := h.1.map TaskData.task, calls := ["task.update " ++ task_id],
    prints := h.2 }

/-- FeishuTaskManager.delete_task: one delete call; returns
response.success() directly, printing nothing. -/
def delete_task (client : String → Response Unit) (task_id : String) :
    WrapResult Bool :=
  let response := client task_id
  { result := response.success, calls := ["task.delete " ++ task_id],
    prints := [] }

/-- FeishuTaskManager.create_tasklist: one create call, unwrapped through
_handle_response. -/
def create_tasklist {τ : Type}
    (client : String → String → Response (TasklistData τ))
    (name description : String) : WrapResult (Option τ) :=
  let response := client name description
  let h := _handle_response "Create tasklist" response
  { result := h.1.map TasklistData.tasklist, calls := ["tasklist.create"],
    prints := h.2 }

/-- FeishuTaskManager.get_tasklist: one get call, unwrapped through
_handle_response. -/
def get_tasklist {τ : Type} (client : String → Response (TasklistData τ))
    (tasklist_id : String) : WrapResult (Option τ) :=
  let response := client tasklist_id
  let h := _handle_response "Get tasklist" response
  { result := h.1.map TasklistData.tasklist,
    calls := ["tasklist.get " ++ tasklist_id], prints := h.2 }

/-- Body built by update_tasklist: name and description only when truthy. -/
structure TasklistBody where
  name : Option String := none
  description : Option String := none
  deriving DecidableEq

/-- Body built by update_tasklist: name and description only when truthy. -/
def tasklistBodyOf (name description : Option String) : TasklistBody :=
  { name := if pyTruthy name then name else none,
    description := if pyTruthy description then description else none }

/-- FeishuTaskManager.update_tasklist: build the body from the truthy
arguments, one update call, unwrapped through _handle_response. -/
def update_tasklist {τ : Type}
    (client : String → TasklistBody → Response (TasklistData τ))
    (tasklist_id : String) (name description : Option String) :
    WrapResult (Option τ) :=
  let response := client tasklist_id (tasklistBodyOf name description)
  let h := _handle_response "Update tasklist" response
  { result := h.1.map TasklistData.tasklist,
    calls := ["tasklist.update " ++ tasklist_id], prints := h.2 }

/-- FeishuTaskManager.delete_tasklist: one delete call; returns
response.success() directly, printing nothing. -/
def delete_tasklist (client : String → Response Unit) (tasklist_id : String) :
    WrapResult Bool :=
  let response := client tasklist_id
  { result := response.success, calls := ["tasklist.delete " ++ tasklist_id],
    prints := [] }

/-- Counterexample to C9 as stated: delete_task on a rejected response
returns the sentinel False without printing any diagnostic, while the claim
says every single-shot wrapper prints one before returning its failure
sentinel. -/
theorem C9_delete_no_diagnostic :
    (delete_task (fun _ => ⟨false, 99991663, "task not found", ()⟩)
        "task_1").result = false
    ∧ (delete_task (fun _ => ⟨false, 99991663, "task not found", ()⟩)
        "task_1").prints = [] :=
  ⟨rfl, rfl⟩

/-- C9 amended.  Single-operation wrapper contract: each wrapper performs
exactly one primary remote call; it returns the unwrapped payload exactly
when the response's success flag is true and the sentinel (None, or False
for the delete wrappers) exactly when it is false; on failure create_task,
get_task, update_task and the tasklist create/get/update wrappers print the
_handle_response diagnostic, while delete_task and delete_tasklist return
the bare flag and print nothing. -/
theorem C9_amended_wrapper_contract {τ : Type}
    (clientC : CreateReq → Response (TaskData τ))
    (clientG : String → Response (TaskData τ))
    (clientU : String → UpdateBody → Response (TaskData τ))
    (clientD : String → Response Unit)
    (clientTC : String → String → Response (TasklistData τ))
    (clientTG : String → Response (TasklistData τ))
    (clientTU : String → TasklistBody → Response (TasklistData τ))
    (title description : String) (assignee due_time : Option String)
    (followers : Option (List String)) (parent_task_id : Option String)
    (task_id : String) (tname tdesc : String)
    (utitle udesc ustatus uassignee udue : Option String)
    (tasklist_id : String) (tlname tldesc : Option String) :
    ((create_task clientC title description assignee due_time followers
        parent_task_id).calls.length = 1
      ∧ (create_task clientC title description assignee due_time followers
          parent_task_id).result
        = (if (clientC (createReqOf title description assignee due_time
              followers parent_task_id)).success then
            some (clientC (createReqOf title description assignee due_time
              followers parent_task_id)).data.task
          else none)
      ∧ (create_task clientC title description assignee due_time followers
          parent_task_id).prints
        = (if (clientC (createReqOf title description assignee due_time
              followers parent_task_id)).success then []
          else [handleMsg "Create task"
            (clientC (createReqOf title description assignee due_time
              followers parent_task_id)).code
            (clientC (createReqOf title description assignee due_time
              followers parent_task_id)).msg]))
    ∧ ((get_task clientG task_id).calls.length = 1
      ∧ (get_task clientG task_id).result
        = (if (clientG task_id).success then
            some (clientG task_id).data.task
          else none)
      ∧ (get_task clientG task_id).prints
        = (if (clientG task_id).success then []
          else [handleMsg "Get task" (clientG task_id).code
            (clientG task_id).msg]))
    ∧ ((update_task clientU task_id utitle udesc ustatus uassignee
          udue).calls.length = 1
      ∧ (update_task clientU task_id utitle udesc ustatus uassignee
          udue).result
        = (if (clientU task_id (updateBodyOf utitle udesc ustatus uassignee
              udue)).success then
            some (clientU task_id (updateBodyOf utitle udesc ustatus
              uassignee udue)).data.task
          else none)
      ∧ (update_task clientU task_id utitle udesc ustatus uassignee
          udue).prints
        = (if (clientU task_id (updateBodyOf utitle udesc ustatus uassignee
              udue)).success then []
          else [handleMsg "Update task"
            (clientU task_id (updateBodyOf utitle udesc ustatus uassignee
              udue)).code
            (clientU task_id (updateBodyOf utitle udesc ustatus uassignee
              udue)).msg]))
    ∧ ((delete_task clientD task_id).calls.length = 1
      ∧ (delete_task clientD task_id).result = (clientD task_id).success
      ∧ (delete_task clientD task_id).prints = [])
    ∧ ((create_tasklist clientTC tname tdesc).calls.length = 1
      ∧ (create_tasklist clientTC tname tdesc).result
        = (if (clientTC tname tdesc).success then
            some (clientTC tname tdesc).data.tasklist
          else none)
      ∧ (create_tasklist clientTC tname tdesc).prints
        = (if (clientTC tname tdesc).success then []
          else [handleMsg "Create tasklist" (clientTC tname tdesc).code
            (clientTC tname tdesc).msg]))
    ∧ ((get_tasklist clientTG tasklist_id).calls.length = 1
      ∧ (get_tasklist clientTG tasklist_id).result
        = (if (clientTG tasklist_id).success then
            some (clientTG tasklist_id).data.tasklist
          else none)
      ∧ (get_tasklist clientTG tasklist_id).prints
        = (if (clientTG tasklist_id).success then []
          else [handleMsg "Get tasklist" (clientTG tasklist_id).code
            (clientTG tasklist_id).msg]))
    ∧ ((update_tasklist clientTU tasklist_id tlname tldesc).calls.length = 1
      ∧ (update_tasklist clientTU tasklist_id tlname tldesc).result
        = (if (clientTU tasklist_id
              (tasklistBodyOf tlname tldesc)).success then
            some (clientTU tasklist_id
              (tasklistBodyOf tlname tldesc)).data.tasklist
          else none)
      ∧ (update_tasklist clientTU tasklist_id tlname tldesc).prints
        = (if (clientTU tasklist_id
              (tasklistBodyOf tlname tldesc)).success then []
          else [handleMsg "Update tasklist"
            (clientTU tasklist_id
              (tasklistBodyOf tlname tldesc)).code
            (clientTU tasklist_id
              (tasklistBodyOf tlname tldesc)).msg]))
    ∧ ((delete_tasklist clientD tasklist_id).calls.length = 1
      ∧ (delete_tasklist clientD tasklist_id).result
        = (clientD tasklist_id).success
      ∧ (delete_tasklist clientD tasklist_id).prints = []) := by
  refine ⟨⟨rfl, ?_, ?_⟩, ⟨rfl, ?_, ?_⟩, ⟨rfl, ?_, ?_⟩, ⟨rfl, rfl, rfl⟩,
    ⟨rfl, ?_, ?_⟩, ⟨rfl, ?_, ?_⟩, ⟨rfl, ?_, ?_⟩, ⟨rfl, rfl, rfl⟩⟩ <;>
  · simp only [create_task, get_task, update_task, create_tasklist,
      get_tasklist, update_tasklist, _handle_response]
    split <;> simp_all

/-- Python csv QUOTE_MINIMAL: a field needs quoting when it contains the
delimiter, the quote char, or a line-break character. -/
def needsQuote (f : List Char) : Bool :=
  f.any (fun c => c == ',' || c == '"' || c == '\r' || c == '\n')

/-- Inside a quoted field csv.writer doubles every quote char. -/
def escapeQuotes : List Char → List Char
  | [] => []
  | c :: cs =>
    if c == '"' then '"' :: '"' :: escapeQuotes cs else c :: escapeQuotes cs

/-- csv.writer rendering of one field. -/
def encodeField (f : List Char) : List Char :=
  if needsQuote f then '"' :: (escapeQuotes f ++ ['"']) else f

/-- Fields of one row joined by the delimiter. -/
def encodeRowBody : List (List Char) → List Char
  | [] => []
  | [f] => encodeField f
  | f :: fs => encodeField f ++ ',' :: encodeRowBody fs

/-- csv.writer rendering of one row, terminated by CRLF (the writer's
default lineterminator; the file is opened with newline set to the empty
string, so the CRLF reaches the file unchanged). -/
def encodeRow (fs : List (List Char)) : List Char :=
  encodeRowBody fs ++ ['\r', '\n']

/-- csv.writer rendering of a whole file. -/
def encodeCSV (rows : List (List (List Char))) : List Char :=
  (rows.map encodeRow).flatten

/-- csv.reader: an unquoted field extends to the next delimiter or line
break, which is left in the input. -/
def parseUnquoted : List Char → List Char × List Char
  | [] => ([], [])
  | c :: cs =>
    if c == ',' || c == '\r' || c == '\n' then ([], c :: cs)
    else
      let p := parseUnquoted cs
      (c :: p.1, p.2)


/-- csv.reader: body of a quoted field after its opening quote; a doubled
quote stands for one quote char, a lone quote closes the field, leaving the
rest of the line in the input. -/
def parseQuotedBody : List Char → List Char × List Char
  | [] => ([], [])
  | [c] => if c == '"' then ([], []) else ([c], [])
  | c :: c2 :: cs =>
    if c == '"' then
      if c2 == '"' then
        let p := parseQuotedBody cs
        ('"' :: p.1, p.2)
      else ([], c2 :: cs)
    else
      let p := parseQuotedBody (c2 :: cs)
      (c :: p.1, p.2)

/-- csv.reader: one field, quoted exactly when it starts with the quote
char. -/
def parseField : List Char → List Char × List Char
  | [] => ([], [])
  | c :: cs => if c == '"' then parseQuotedBody cs else parseUnquoted (c :: cs)

/-- The remaining input of parseUnquoted is a suffix of the input. -/
theorem parseUnquoted_rest_length (cs : List Char) :
    (parseUnquoted cs).2.length ≤ cs.length := by
  induction cs with
  | nil => simp [parseUnquoted]
  | cons c cs ih =>
    unfold parseUnquoted
    by_cases hc : (c == ',' || c == '\r' || c == '\n') = true
    · simp [hc]
    · simp only [hc, if_neg, Bool.not_eq_true]
      simp only [List.length_cons]
      omega

/-- The remaining input of parseQuotedBody is no longer than the input. -/
theorem parseQuotedBody_rest_length (cs : List Char) :
    (parseQuotedBody cs).2.length ≤ cs.length := by
  induction cs using parseQuotedBody.induct with
  | case1 => simp [parseQuotedBody]
  | case2 c hc =>
    obtain rfl : c = '"' := by simpa using hc
    simp [parseQuotedBody]
  | case3 c hc =>
    have hne : ¬c = '"' := by simpa using hc
    simp [parseQuotedBody, hne]
  | case4 c c2 cs hc hc2 ih =>
    obtain rfl : c = '"' := by simpa using hc
    obtain rfl : c2 = '"' := by simpa using hc2
    simp [parseQuotedBody]
    omega
  | case5 c c2 cs hc hc2 =>
    obtain rfl : c = '"' := by simpa using hc
    have hne : ¬c2 = '"' := by simpa using hc2
    simp [parseQuotedBody, hne]
  | case6 c c2 cs hc ih =>
    have hne : ¬c = '"' := by simpa using hc
    simp [parseQuotedBody, hne]
    simp only [List.length_cons] at ih
    omega

/-- The remaining input of parseField is no longer than the input. -/
theorem parseField_rest_length (cs : List Char) :
    (parseField cs).2.length ≤ cs.length := by
  rcases cs with _ | ⟨c, cs⟩
  · simp [parseField]
  · by_cases hc : c = '"'
    · subst hc
      have := parseQuotedBody_rest_length cs
      simp [parseField]
      omega
    · simp only [parseField, beq_iff_eq, hc, if_neg, Bool.not_eq_true]
      exact parseUnquoted_rest_length (c :: cs)

/-- csv.reader: one record — fields separated by the delimiter, ended by the
line break (CRLF or a bare LF) or the end of input. -/
def parseRow (cs : List Char) : List (List Char) × List Char :=
  match hr : (parseField cs).2 with
  | [] => ([(parseField cs).1], [])
  | c :: cs2 =>
    if c == ',' then
      ((parseField cs).1 :: (parseRow cs2).1, (parseRow cs2).2)
    else if c == '\r' then
      match cs2 with
      | c2 :: cs3 =>
        if c2 == '\n' then ([(parseField cs).1], cs3)
        else ([(parseField cs).1], cs2)
      | [] => ([(parseField cs).1], [])
    else ([(parseField cs).1], cs2)
termination_by cs.length
decreasing_by
  all_goals
    have h := parseField_rest_length cs
    rw [hr] at h
    simp only [List.length_cons] at h
    omega

/-- parseRow on empty input yields one empty field and no rest. -/
theorem parseRow_nil : parseRow [] = ([[]], []) := by
  unfold parseRow
  simp [parseField]

/-- On nonempty input, parseRow consumes at least one character. -/
theorem parseRow_rest_lt_aux :
    ∀ (n : Nat) (cs : List Char), cs.length ≤ n → cs ≠ [] →
      (parseRow cs).2.length < cs.length := by
  intro n
  induction n with
  | zero =>
    intro cs hlen0 hne
    rcases cs with _ | ⟨c, cs⟩
    · exact absurd rfl hne
    · simp at hlen0
  | succ n ih =>
    intro cs hlen0 hne
    have hlen := parseField_rest_length cs
    have hpos : 0 < cs.length := List.length_pos.mpr hne
    unfold parseRow
    split
    next hr => simpa using hpos
    next c cs2 hr =>
      rw [hr] at hlen
      simp only [List.length_cons] at hlen
      by_cases hc : (c == ',') = true
      · rw [if_pos hc]
        rcases Decidable.em (cs2 = []) with h2 | h2
        · subst h2
          rw [parseRow_nil]
          simpa using hpos
        · have hrec := ih cs2 (by omega) h2
          simp only []
          omega
      · rw [if_neg hc]
        by_cases hcr : (c == '\r') = true
        · rw [if_pos hcr]
          rcases cs2 with _ | ⟨c2, cs3⟩
          · simpa using hpos
          · simp only [List.length_cons] at hlen
            by_cases hn2 : (c2 == '\n') = true
            · simp only [hn2, if_pos]
              simp
              omega
            · simp only [hn2, if_neg, Bool.not_eq_true]
              simp
              omega
        · rw [if_neg hcr]
          simp only []
          omega

/-- On nonempty input, parseRow consumes at least one character. -/
theorem parseRow_rest_lt (cs : List Char) (hne : cs ≠ []) :
    (parseRow cs).2.length < cs.length :=
  parseRow_rest_lt_aux cs.length cs le_rfl hne

/-- csv.reader: the whole file as a list of records. -/
def parseCSV (cs : List Char) : List (List (List Char)) :=
  if h : cs = [] then []
  else (parseRow cs).1 :: parseCSV (parseRow cs).2
termination_by cs.length
decreasing_by exact parseRow_rest_lt cs h

/-- The input that may legally follow a field: end of input, the delimiter,
or a line break. -/
def stopAt : List Char → Prop
  | [] => True
  | c :: _ => c = ',' ∨ c = '\r' ∨ c = '\n'

/-- parseUnquoted recovers a field containing no delimiter or line break
when followed by a legal separator. -/
theorem parseUnquoted_spec (f rest : List Char)
    (hf : ∀ c ∈ f, ¬(c = ',' ∨ c = '\r' ∨ c = '\n'))
    (hrest : stopAt rest) :
    parseUnquoted (f ++ rest) = (f, rest) := by
  induction f with
  | nil =>
    rcases rest with _ | ⟨r, rs⟩
    · simp [parseUnquoted]
    · rcases hrest with h | h | h <;> subst h <;> simp [parseUnquoted]
  | cons c f ih =>
    have hc := hf c (by simp)
    push_neg at hc
    obtain ⟨h1, h2, h3⟩ := hc
    have hcond : (c == ',' || c == '\r' || c == '\n') = false := by
      simp [h1, h2, h3]
    simp only [List.cons_append, parseUnquoted, hcond, Bool.false_eq_true,
      if_false, List.append_eq]
    rw [ih (fun d hd => hf d (by simp [hd]))]

/-- parseQuotedBody recovers a quote-escaped field terminated by its closing
quote when followed by a legal separator. -/
theorem parseQuotedBody_spec (f rest : List Char) (hrest : stopAt rest) :
    parseQuotedBody (escapeQuotes f ++ '"' :: rest) = (f, rest) := by
  induction f with
  | nil =>
    simp only [escapeQuotes, List.nil_append]
    rcases rest with _ | ⟨r, rs⟩
    · simp [parseQuotedBody]
    · have hr : ¬r = '"' := by
        rcases hrest with h | h | h <;> subst h <;> decide
      simp [parseQuotedBody, hr]
  | cons c f ih =>
    by_cases hc : c = '"'
    · subst hc
      simp only [escapeQuotes, beq_self_eq_true, if_pos, List.cons_append]
      simp [parseQuotedBody, ih]
    · rcases hsplit : escapeQuotes f ++ '"' :: rest with _ | ⟨d, ds⟩
      · exact absurd hsplit (by simp)
      · have henc : escapeQuotes (c :: f) = c :: escapeQuotes f := by
          simp [escapeQuotes, hc]
        rw [henc, List.cons_append, hsplit]
        have hstep : parseQuotedBody (c :: d :: ds)
            = (c :: (parseQuotedBody (d :: ds)).1,
               (parseQuotedBody (d :: ds)).2) := by
          simp [parseQuotedBody, hc]
        rw [hstep, ← hsplit, ih]

/-- parseField recovers any encodeField-rendered field when followed by a
legal separator. -/
theorem parseField_spec (f rest : List Char) (hrest : stopAt rest) :
    parseField (encodeField f ++ rest) = (f, rest) := by
  by_cases hq : needsQuote f = true
  · simp only [encodeField, hq, if_pos]
    have hassoc : ('"' :: (escapeQuotes f ++ ['"'])) ++ rest
        = '"' :: (escapeQuotes f ++ '"' :: rest) := by simp
    rw [hassoc]
    have hfld : parseField ('"' :: (escapeQuotes f ++ '"' :: rest))
        = parseQuotedBody (escapeQuotes f ++ '"' :: rest) := by
      simp [parseField]
    rw [hfld, parseQuotedBody_spec f rest hrest]
  · have hclean : ∀ c ∈ f, ¬(c = ',' ∨ c = '"' ∨ c = '\r' ∨ c = '\n') := by
      intro c hcmem
      simp only [needsQuote, List.any_eq_true, Bool.or_eq_true, beq_iff_eq,
        not_exists, not_and, not_or] at hq
      push_neg at hq
      have := hq c hcmem
      tauto
    have henc : encodeField f = f := by simp [encodeField, hq]
    rw [henc]
    rcases f with _ | ⟨c, f'⟩
    · simp only [List.nil_append]
      rcases rest with _ | ⟨r, rs⟩
      · simp [parseField]
      · rcases hrest with h | h | h <;> subst h <;>
          simp [parseField, parseUnquoted]
    · have hc := hclean c (by simp)
      push_neg at hc
      obtain ⟨h1, h2, h3, h4⟩ := hc
      have hfld : parseField ((c :: f') ++ rest)
          = parseUnquoted ((c :: f') ++ rest) := by
        simp only [List.cons_append, parseField]
        rw [if_neg (by simpa using h2)]
      rw [hfld]
      exact parseUnquoted_spec (c :: f') rest
        (fun d hd => by
          have := hclean d hd
          tauto)
        hrest

/-- parseRow recovers any encodeRowBody-rendered nonempty record terminated
by CRLF. -/
theorem parseRow_spec (fs : List (List Char)) (rest : List Char)
    (hne : fs ≠ []) :
    parseRow (encodeRowBody fs ++ '\r' :: '\n' :: rest) = (fs, rest) := by
  induction fs with
  | nil => exact absurd rfl hne
  | cons f fs ih =>
    rcases fs with _ | ⟨f2, fs'⟩
    · have hf := parseField_spec f ('\r' :: '\n' :: rest) (by simp [stopAt])
      simp only [encodeRowBody]
      unfold parseRow
      split
      next hr =>
        rw [hf] at hr
        simp at hr
      next c cs2 hr =>
        rw [hf] at hr
        simp only at hr
        injection hr with hr1 hr2
        subst hr1
        subst hr2
        rw [if_neg (by decide), if_pos (by decide)]
        simp [hf]
    · have hf := parseField_spec f
        (',' :: (encodeRowBody (f2 :: fs') ++ '\r' :: '\n' :: rest))
        (by simp [stopAt])
      have harg : encodeRowBody (f :: f2 :: fs') ++ '\r' :: '\n' :: rest
          = encodeField f
            ++ (',' :: (encodeRowBody (f2 :: fs')
                  ++ '\r' :: '\n' :: rest)) := by
        simp [encodeRowBody]
      rw [harg]
      unfold parseRow
      split
      next hr =>
        rw [hf] at hr
        simp at hr
      next c cs2 hr =>
        rw [hf] at hr
        simp only at hr
        injection hr with hr1 hr2
        subst hr1
        subst hr2
        rw [if_pos (by decide)]
        rw [ih (by simp), hf]

/-- Round trip of the whole file: parsing the rendering of any list of
nonempty records gives the records back. -/
theorem parseCSV_spec : ∀ (rows : List (List (List Char))),
    (∀ r ∈ rows, r ≠ []) → parseCSV (encodeCSV rows) = rows := by
  intro rows
  induction rows with
  | nil => intro _; simp [encodeCSV, parseCSV]
  | cons r rows ih =>
    intro hne
    have hr : encodeCSV (r :: rows)
        = encodeRowBody r ++ '\r' :: '\n' :: encodeCSV rows := by
      simp [encodeCSV, encodeRow]
    rw [hr]
    have hnonempty : encodeRowBody r ++ '\r' :: '\n' :: encodeCSV rows
        ≠ [] := by simp
    unfold parseCSV
    rw [dif_neg hnonempty]
    rw [parseRow_spec r (encodeCSV rows) (hne r (by simp))]
    simp only
    rw [ih (fun r' h' => hne r' (by simp [h']))]

/-- Task record fetched by export_to_csv before writing. -/
structure ExportTask where
  task_id : String
  summary : String
  description : Option String
  status : String
  assignee : Option String
  due_time : Option String
  created_time : String
  url : String
  deriving DecidableEq

/-- Header row written by export_to_csv. -/
def exportHeader : List String :=
  ["task_id", "summary", "description", "status", "assignee", "due_time",
   "created_time", "url"]

/-- Data row written by export_to_csv for one task: the optional fields
written as the empty string when absent (task.description or two quotes,
etc.). -/
def exportRow (t : ExportTask) : List String :=
  [t.task_id, t.summary, t.description.getD "", t.status, t.assignee.getD "",
   t.due_time.getD "", t.created_time, t.url]

/-- The file content produced by export_to_csv for a fetched task list:
header row then one row per task, each rendered by csv.writer. -/
def export_to_csv (tasks : List ExportTask) : List Char :=
  encodeCSV ((exportHeader :: tasks.map exportRow).map
    (fun r => r.map String.data))

/-- Re-parsing a produced file: the first cell of every row after the
header. -/
def parsedTaskIds (file : List Char) : List String :=
  ((parseCSV file).drop 1).map (fun r => String.mk (r.headD []))

/-- Rebuilding a string from its character data gives the string back. -/
theorem stringMkData (s : String) : String.mk s.data = s := rfl

/-- C8.  CSV export round-trip: for every fetched in-memory task list,
re-parsing the file produced by export_to_csv (header row then one row per
task) yields exactly the task_id values of the input list, in order — in
particular the same task_id set. -/
theorem C8_csv_roundtrip (tasks : List ExportTask) :
    parsedTaskIds (export_to_csv tasks) = tasks.map ExportTask.task_id := by
  have hne : ∀ r ∈ (exportHeader :: tasks.map exportRow).map
      (fun r => r.map String.data), r ≠ [] := by
    intro r hr
    rcases List.mem_map.mp hr with ⟨r0, hr0, rfl⟩
    rcases List.mem_cons.mp hr0 with rfl | hmem
    · simp [exportHeader]
    · rcases List.mem_map.mp hmem with ⟨t, ht, rfl⟩
      simp [exportRow]
  unfold parsedTaskIds export_to_csv
  rw [parseCSV_spec _ hne]
  simp only [List.map_cons, List.drop_succ_cons, List.drop_zero, List.map_map]
  refine List.map_congr_left (fun t ht => ?_)
  simp [exportRow, stringMkData]
